import Mathlib

/-!
Verification of the lending-forecast engine (src/app.py).

The computational core of the application is embedded here over exact
rational arithmetic: the per-month metrics formula
(`calculate_monthly_metrics`, app.py lines 138-161), the derived
unit-economics figures (lines 55, 131-135), the straight-line amortized
cashflow accumulation loop (lines 164-199), the loan-size range validation
(lines 51-53), the average-growth headline metric (line 263, over the
reals since it takes a real exponent), and the scenario-save handler
(lines 223-242).
-/

namespace LendingForecast

/-- Parameter set gathered from the sidebar widgets of app.py.
Rates are already divided by 100 as in the source; `loan_term` and
`months` are the loan term and forecast horizon in months. -/
structure Params where
  initial_lending : ℚ
  loan_growth_rate : ℚ
  min_loan_size : ℚ
  max_loan_size : ℚ
  loan_term : ℕ
  cost_per_funded : ℚ
  bad_debt_rate : ℚ
  recovery_rate : ℚ
  revenue_per_loan_base : ℚ
  months : ℕ
  fixed_costs : ℚ
  variable_cost_pct : ℚ

/-- Ranges the sidebar widgets of app.py enforce on the inputs:
`min_loan_size` has min_value 50, `max_loan_size` has min_value
min_loan_size + 50, the growth slider spans [-50%, 100%], the term is one
of the enumerated options [1,2,3,4,5,6,12], rate sliders span [0%, 100%],
the horizon slider spans 1..60, and the money inputs have min_value 0. -/
def ValidParams (p : Params) : Prop :=
  50 ≤ p.min_loan_size ∧
  p.min_loan_size + 50 ≤ p.max_loan_size ∧
  -(1/2) ≤ p.loan_growth_rate ∧ p.loan_growth_rate ≤ 1 ∧
  p.loan_term ∈ ([1, 2, 3, 4, 5, 6, 12] : List ℕ) ∧
  0 ≤ p.cost_per_funded ∧
  0 ≤ p.bad_debt_rate ∧ p.bad_debt_rate ≤ 1 ∧
  0 ≤ p.recovery_rate ∧ p.recovery_rate ≤ 1 ∧
  0 ≤ p.revenue_per_loan_base ∧
  1 ≤ p.months ∧ p.months ≤ 60 ∧
  0 ≤ p.fixed_costs ∧
  0 ≤ p.variable_cost_pct ∧ p.variable_cost_pct ≤ 1

instance (p : Params) : Decidable (ValidParams p) := by
  unfold ValidParams; infer_instance

/-- Python's `int()` conversion truncates toward zero: floor for
non-negative arguments, ceiling for negative ones. -/
def pyInt (x : ℚ) : ℤ := if 0 ≤ x then ⌊x⌋ else ⌈x⌉

/-- app.py line 55: `avg_loan_size = (min_loan_size + max_loan_size) / 2`. -/
def avg_loan_size (p : Params) : ℚ := (p.min_loan_size + p.max_loan_size) / 2

/-- app.py line 131: `loan_size_factor = avg_loan_size / 300`. -/
def loan_size_factor (p : Params) : ℚ := avg_loan_size p / 300

/-- app.py line 132: `loan_term_factor = loan_term / 3`. -/
def loan_term_factor (p : Params) : ℚ := (p.loan_term : ℚ) / 3

/-- app.py line 133: `revenue_per_loan = revenue_per_loan_base * loan_size_factor * loan_term_factor`. -/
def revenue_per_loan (p : Params) : ℚ :=
  p.revenue_per_loan_base * loan_size_factor p * loan_term_factor p

/-- app.py line 134: `bad_debt_per_loan = avg_loan_size * bad_debt_rate * (1 - recovery_rate)`. -/
def bad_debt_per_loan (p : Params) : ℚ :=
  avg_loan_size p * p.bad_debt_rate * (1 - p.recovery_rate)

/-- app.py line 135: `net_contribution_per_loan = revenue_per_loan - cost_per_funded - bad_debt_per_loan`. -/
def net_contribution_per_loan (p : Params) : ℚ :=
  revenue_per_loan p - p.cost_per_funded - bad_debt_per_loan p

/-- The dictionary returned by `calculate_monthly_metrics` in app.py
(lines 151-161). `loans_this_month` is an integer (Python `int(...)`). -/
structure MonthlyRecord where
  monthly_lending : ℚ
  loans_this_month : ℤ
  revenue : ℚ
  cost : ℚ
  provision : ℚ
  variable_cost : ℚ
  net_contribution : ℚ
  total_expenditure : ℚ
  net_cashflow : ℚ
  deriving DecidableEq

/-- app.py line 141:
`monthly_lending = initial_lending * ((1 + loan_growth_rate) ** (month - 1))`,
with `month` 1-based. -/
def monthly_lending (month : ℕ) (p : Params) : ℚ :=
  p.initial_lending * (1 + p.loan_growth_rate) ^ (month - 1)

/-- app.py lines 138-161, `calculate_monthly_metrics`: the per-month
metrics formula, translated line by line. -/
def calculate_monthly_metrics (month : ℕ) (p : Params) : MonthlyRecord :=
  let ml : ℚ := monthly_lending month p
  let loans_this_month : ℤ := pyInt (ml / avg_loan_size p)
  let revenue : ℚ := (loans_this_month : ℚ) * revenue_per_loan p
  let cost : ℚ := (loans_this_month : ℚ) * p.cost_per_funded
  let provision : ℚ := (loans_this_month : ℚ) * bad_debt_per_loan p
  let variable_cost : ℚ := revenue * p.variable_cost_pct
  let net_contribution : ℚ := revenue - cost - provision - variable_cost
  let total_expenditure : ℚ := cost + provision + variable_cost + p.fixed_costs
  let net_cashflow : ℚ := revenue - total_expenditure
  { monthly_lending := ml
    loans_this_month := loans_this_month
    revenue := revenue
    cost := cost
    provision := provision
    variable_cost := variable_cost
    net_contribution := net_contribution
    total_expenditure := total_expenditure
    net_cashflow := net_cashflow }

/-- app.py line 166: `forecast_horizon = months + loan_term`, the length
of the two cashflow accumulation arrays. -/
def forecast_horizon (p : Params) : ℕ := p.months + p.loan_term

/-- app.py lines 197-198: add `v` at 0-based index `i` of the array, with
the defensive bounds check `if repayment_month < len(cashflow_data)`
skipping out-of-range indices. -/
def addAt (l : List ℚ) (i : ℕ) (v : ℚ) : List ℚ :=
  if h : i < l.length then l.set i (l.get ⟨i, h⟩ + v) else l

/-- app.py lines 195-198: `for i in range(loan_term)` add `v` at index
`month - 1 + i` of the array, where `month` is the 1-based origination
month. -/
def distribute (l : List ℚ) (month term : ℕ) (v : ℚ) : List ℚ :=
  (List.range term).foldl (fun acc i => addAt acc (month - 1 + i) v) l

/-- One loop iteration of app.py lines 190-198 projected onto the
`cashflow_data` array: if `loan_term > 0`, spread
`monthly_repayment = revenue / loan_term` over `loan_term` consecutive
slots starting at index `month - 1`. -/
def cashflow_step (p : Params) (l : List ℚ) (month : ℕ) : List ℚ :=
  if 0 < p.loan_term then
    distribute l month p.loan_term
      ((calculate_monthly_metrics month p).revenue / (p.loan_term : ℚ))
  else l

/-- Same iteration projected onto the `net_cashflow_data` array of
app.py line 199: the added value is
`monthly_repayment - monthly_net_expense`. -/
def net_cashflow_step (p : Params) (l : List ℚ) (month : ℕ) : List ℚ :=
  if 0 < p.loan_term then
    distribute l month p.loan_term
      ((calculate_monthly_metrics month p).revenue / (p.loan_term : ℚ) -
        (calculate_monthly_metrics month p).total_expenditure / (p.loan_term : ℚ))
  else l

/-- The `cashflow_data` array after the first `n` iterations of the month
loop of app.py lines 170-199, starting from `[0] * forecast_horizon`. -/
def cashflowAux (p : Params) (n : ℕ) : List ℚ :=
  (List.range n).foldl (fun l k => cashflow_step p l (k + 1))
    (List.replicate (forecast_horizon p) 0)

/-- app.py line 167 and lines 190-198: the `cashflow_data` array after
the full month loop over months 1..months. -/
def cashflow_data (p : Params) : List ℚ := cashflowAux p p.months

/-- The `net_cashflow_data` analogue of `cashflowAux`. -/
def netCashflowAux (p : Params) (n : ℕ) : List ℚ :=
  (List.range n).foldl (fun l k => net_cashflow_step p l (k + 1))
    (List.replicate (forecast_horizon p) 0)

/-- app.py line 168 and line 199: the `net_cashflow_data` array after the
full month loop. -/
def net_cashflow_data (p : Params) : List ℚ := netCashflowAux p p.months

/-- app.py lines 170-188: the ordered list of monthly records for months
1..months (the rows of the forecast DataFrame). -/
def forecast_records (p : Params) : List MonthlyRecord :=
  (List.range p.months).map (fun k => calculate_monthly_metrics (k + 1) p)

/-- app.py lines 51-53 followed by the forecast computation: if
`min_loan_size >= max_loan_size` the script stops (st.stop()) before any
record, total or cashflow series is produced; otherwise the records and
both cashflow series are produced. -/
def run_forecast (p : Params) :
    Option (List MonthlyRecord × List ℚ × List ℚ) :=
  if p.min_loan_size ≥ p.max_loan_size then none
  else some (forecast_records p, cashflow_data p, net_cashflow_data p)

/-- Truthiness test of `scenario_name.strip()` in app.py line 224:
Python's stripped string is empty exactly when every character of the
name is whitespace (an empty name included). -/
def is_blank (s : String) : Bool := s.data.all Char.isWhitespace

/-- app.py lines 223-242, the Save Scenario handler: if the stripped name
is non-empty the snapshot is stored under the (unstripped) name,
overwriting any existing entry of that key in the dict; otherwise an
error is shown (`false`) and the store is left unchanged. The store is
modelled as a lookup map. -/
def scenario_save {α : Type} (store : String → Option α) (name : String)
    (snap : α) : Bool × (String → Option α) :=
  if is_blank name then
    (false, store)
  else
    (true, fun k => if k = name then some snap else store k)

/-- Default parameters of the sidebar (app.py widget defaults). -/
def defaultParams : Params :=
  { initial_lending := 2000000
    loan_growth_rate := 0
    min_loan_size := 300
    max_loan_size := 1500
    loan_term := 3
    cost_per_funded := 40
    bad_debt_rate := 1/5
    recovery_rate := 0
    revenue_per_loan_base := 150
    months := 12
    fixed_costs := 25000
    variable_cost_pct := 1/20 }

/-- Parameter set of testable property 7 of the spec: initial lending
1,000,000, zero growth, loan sizes 300 to 1500, term 3 months, cost per
funded loan 40, bad debt 20%, recovery 0%, base revenue 150, horizon 1
month, fixed overhead 25,000, variable cost 5% of revenue. -/
def scenarioC9 : Params :=
  { initial_lending := 1000000
    loan_growth_rate := 0
    min_loan_size := 300
    max_loan_size := 1500
    loan_term := 3
    cost_per_funded := 40
    bad_debt_rate := 1/5
    recovery_rate := 0
    revenue_per_loan_base := 150
    months := 1
    fixed_costs := 25000
    variable_cost_pct := 1/20 }

/-- Same scenario with a zero loan term, the input of claim C6. -/
def zeroTermParams : Params :=
  { initial_lending := 1000000
    loan_growth_rate := 0
    min_loan_size := 300
    max_loan_size := 1500
    loan_term := 0
    cost_per_funded := 40
    bad_debt_rate := 1/5
    recovery_rate := 0
    revenue_per_loan_base := 150
    months := 1
    fixed_costs := 25000
    variable_cost_pct := 1/20 }

/-- Parameter set violating the loan-size range constraint
(max_loan_size = min_loan_size = 300). -/
def badRangeParams : Params :=
  { initial_lending := 2000000
    loan_growth_rate := 0
    min_loan_size := 300
    max_loan_size := 300
    loan_term := 3
    cost_per_funded := 40
    bad_debt_rate := 1/5
    recovery_rate := 0
    revenue_per_loan_base := 150
    months := 12
    fixed_costs := 25000
    variable_cost_pct := 1/20 }

/-- Growth of 100% per month over a 2-month horizon, the input on which
the average-growth formula of app.py line 263 diverges from the spec. -/
def growthBugParams : Params :=
  { initial_lending := 1000000
    loan_growth_rate := 1
    min_loan_size := 300
    max_loan_size := 1500
    loan_term := 3
    cost_per_funded := 40
    bad_debt_rate := 1/5
    recovery_rate := 0
    revenue_per_loan_base := 150
    months := 2
    fixed_costs := 25000
    variable_cost_pct := 1/20 }

/-- app.py line 263: the Avg Monthly Growth headline metric, as the code
computes it (exponent `1 / months`), here as a growth fraction over the
reals; the source additionally multiplies by 100 for percent display.
The first and last lending volumes are those of months 1 and `months` of
the forecast DataFrame. -/
noncomputable def avg_growth (p : Params) : ℝ :=
  if 1 < p.months then
    ((monthly_lending p.months p : ℝ) / (monthly_lending 1 p : ℝ)) ^
        ((1 : ℝ) / (p.months : ℝ)) - 1
  else 0

/-- Modelled from the spec (section 4, build_forecast):
`average_monthly_growth_achieved = (lending_volume[last] / lending_volume[first])
^ (1/(horizon-1)) - 1` when horizon > 1, else 0 — the same metric with
exponent `1 / (months - 1)`, stated for comparison with `avg_growth`. -/
noncomputable def avg_growth_claimed (p : Params) : ℝ :=
  if 1 < p.months then
    ((monthly_lending p.months p : ℝ) / (monthly_lending 1 p : ℝ)) ^
        ((1 : ℝ) / ((p.months : ℝ) - 1)) - 1
  else 0

/-! ## Helper lemmas -/

lemma pyInt_eq_floor {x : ℚ} (h : 0 ≤ x) : pyInt x = ⌊x⌋ := if_pos h

lemma addAt_length (l : List ℚ) (i : ℕ) (v : ℚ) :
    (addAt l i v).length = l.length := by
  unfold addAt
  split
  · simp
  · rfl

lemma addAt_cons_zero (x : ℚ) (xs : List ℚ) (v : ℚ) :
    addAt (x :: xs) 0 v = (x + v) :: xs := by
  unfold addAt
  rw [dif_pos (by simp)]
  rfl

lemma addAt_cons_succ (x : ℚ) (xs : List ℚ) (i : ℕ) (v : ℚ) :
    addAt (x :: xs) (i + 1) v = x :: addAt xs i v := by
  unfold addAt
  by_cases h : i < xs.length
  · rw [dif_pos (by simp only [List.length_cons]; omega), dif_pos h]
    rfl
  · rw [dif_neg (by simp only [List.length_cons]; omega), dif_neg h]

lemma addAt_sum (l : List ℚ) (i : ℕ) (v : ℚ) (h : i < l.length) :
    (addAt l i v).sum = l.sum + v := by
  induction l generalizing i with
  | nil => simp at h
  | cons x xs ih =>
    cases i with
    | zero =>
      rw [addAt_cons_zero]
      simp only [List.sum_cons]
      ring
    | succ n =>
      rw [addAt_cons_succ]
      simp only [List.sum_cons, ih n (by simpa using h)]
      ring

lemma distribute_succ (l : List ℚ) (m t : ℕ) (v : ℚ) :
    distribute l m (t + 1) v = addAt (distribute l m t v) (m - 1 + t) v := by
  unfold distribute
  rw [List.range_succ, List.foldl_append]
  rfl

lemma distribute_length (l : List ℚ) (m t : ℕ) (v : ℚ) :
    (distribute l m t v).length = l.length := by
  induction t with
  | zero => rfl
  | succ n ih => rw [distribute_succ, addAt_length, ih]

lemma distribute_sum (l : List ℚ) (m t : ℕ) (v : ℚ)
    (h : ∀ i < t, m - 1 + i < l.length) :
    (distribute l m t v).sum = l.sum + (t : ℚ) * v := by
  induction t with
  | zero => simp [distribute]
  | succ n ih =>
    rw [distribute_succ,
      addAt_sum _ _ _ (by rw [distribute_length]; exact h n (by omega)),
      ih (fun i hi => h i (by omega))]
    push_cast
    ring

lemma cashflowAux_succ (p : Params) (n : ℕ) :
    cashflowAux p (n + 1) = cashflow_step p (cashflowAux p n) (n + 1) := by
  unfold cashflowAux
  rw [List.range_succ, List.foldl_append]
  rfl

lemma cashflowAux_length (p : Params) (n : ℕ) :
    (cashflowAux p n).length = forecast_horizon p := by
  induction n with
  | zero => simp [cashflowAux]
  | succ k ih =>
    rw [cashflowAux_succ]
    unfold cashflow_step
    split
    · rw [distribute_length, ih]
    · exact ih

lemma cashflowAux_sum (p : Params) (ht : 0 < p.loan_term) (n : ℕ)
    (hn : n ≤ p.months) :
    (cashflowAux p n).sum =
      ((List.range n).map
        (fun k => (calculate_monthly_metrics (k + 1) p).revenue)).sum := by
  induction n with
  | zero => simp [cashflowAux]
  | succ k ih =>
    have htq : ((p.loan_term : ℚ)) ≠ 0 := Nat.cast_ne_zero.mpr (by omega)
    rw [cashflowAux_succ]
    unfold cashflow_step
    rw [if_pos ht,
      distribute_sum _ _ _ _
        (fun i hi => by
          rw [cashflowAux_length]
          unfold forecast_horizon
          omega),
      ih (by omega), List.range_succ, List.map_append, List.sum_append]
    simp only [List.map_cons, List.map_nil, List.sum_cons, List.sum_nil]
    rw [mul_comm, div_mul_cancel₀ _ htq]
    ring

/-! ## Claim theorems -/

/-- Claim C2: for every month index and every parameter set within the
widget ranges with positive initial lending, `calculate_monthly_metrics`
returns `loans_this_month` equal to the floor of the month's lending
volume divided by the average loan size (Python `int()` truncates toward
zero, which coincides with the floor here because the quotient is
non-negative). -/
theorem C2_loans_funded_is_floor (p : Params) (month : ℕ)
    (hv : ValidParams p) (h0 : 0 < p.initial_lending) :
    (calculate_monthly_metrics month p).loans_this_month =
      ⌊monthly_lending month p / avg_loan_size p⌋ := by
  obtain ⟨h1, h2, h3, -⟩ := hv
  have havg : 0 < avg_loan_size p := by
    unfold avg_loan_size
    linarith
  have hg : (0 : ℚ) ≤ 1 + p.loan_growth_rate := by linarith
  have hml : 0 ≤ monthly_lending month p :=
    mul_nonneg h0.le (pow_nonneg hg _)
  have hq : (calculate_monthly_metrics month p).loans_this_month =
      pyInt (monthly_lending month p / avg_loan_size p) := rfl
  rw [hq, pyInt_eq_floor (div_nonneg hml havg.le)]

/-- Witness for C2 at the sidebar defaults, month 1: lending volume
2,000,000 over average loan size 900 gives exactly 2222 loans. -/
theorem C2_witness :
    ValidParams defaultParams ∧
    (calculate_monthly_metrics 1 defaultParams).loans_this_month =
      ⌊monthly_lending 1 defaultParams / avg_loan_size defaultParams⌋ ∧
    (calculate_monthly_metrics 1 defaultParams).loans_this_month = 2222 :=
  ⟨by unfold ValidParams defaultParams; norm_num,
   C2_loans_funded_is_floor defaultParams 1
     (by unfold ValidParams defaultParams; norm_num)
     (by norm_num [defaultParams]),
   by norm_num [calculate_monthly_metrics, monthly_lending, avg_loan_size,
     pyInt, defaultParams]⟩

/-- Claim C4: every monthly record satisfies the three accounting
equations exactly: total_expenditure = cost + provision + variable_cost +
fixed overhead, net_cashflow = revenue - total_expenditure, and
net_contribution = revenue - cost - provision - variable_cost. -/
theorem C4_record_invariants (month : ℕ) (p : Params) :
    (calculate_monthly_metrics month p).total_expenditure =
      (calculate_monthly_metrics month p).cost +
        (calculate_monthly_metrics month p).provision +
        (calculate_monthly_metrics month p).variable_cost +
        p.fixed_costs ∧
    (calculate_monthly_metrics month p).net_cashflow =
      (calculate_monthly_metrics month p).revenue -
        (calculate_monthly_metrics month p).total_expenditure ∧
    (calculate_monthly_metrics month p).net_contribution =
      (calculate_monthly_metrics month p).revenue -
        (calculate_monthly_metrics month p).cost -
        (calculate_monthly_metrics month p).provision -
        (calculate_monthly_metrics month p).variable_cost :=
  ⟨rfl, rfl, rfl⟩

/-- Claim C10: in every monthly record the two bottom lines differ by
exactly the fixed monthly overhead: net_contribution - net_cashflow =
fixed_costs, whatever the volume, growth or rates. -/
theorem C10_contribution_cashflow_gap (month : ℕ) (p : Params) :
    (calculate_monthly_metrics month p).net_contribution -
      (calculate_monthly_metrics month p).net_cashflow = p.fixed_costs := by
  have h1 : (calculate_monthly_metrics month p).net_contribution =
      (calculate_monthly_metrics month p).revenue -
        (calculate_monthly_metrics month p).cost -
        (calculate_monthly_metrics month p).provision -
        (calculate_monthly_metrics month p).variable_cost := rfl
  have h2 : (calculate_monthly_metrics month p).net_cashflow =
      (calculate_monthly_metrics month p).revenue -
        ((calculate_monthly_metrics month p).cost +
          (calculate_monthly_metrics month p).provision +
          (calculate_monthly_metrics month p).variable_cost +
          p.fixed_costs) := rfl
  rw [h1, h2]
  ring

/-- Claim C5: whenever max_loan_size ≤ min_loan_size the script stops at
the validation of app.py lines 51-53 and no monthly records, totals or
cashflow series are produced (the range is never clamped). -/
theorem C5_invalid_range_halts (p : Params)
    (h : p.max_loan_size ≤ p.min_loan_size) :
    run_forecast p = none := by
  unfold run_forecast
  rw [if_pos h]

/-- Witness for C5 at a concrete parameter set with
max_loan_size = min_loan_size = 300. -/
theorem C5_witness :
    badRangeParams.max_loan_size ≤ badRangeParams.min_loan_size ∧
    run_forecast badRangeParams = none :=
  ⟨by norm_num [badRangeParams],
   C5_invalid_range_halts badRangeParams (by norm_num [badRangeParams])⟩

/-- Claim C8: for every origination month m in 1..months and every
amortization offset i < loan_term, the written 0-based index m - 1 + i is
strictly below the length of the cashflow array, so the defensive bounds
check of app.py line 197 never skips an allocation. -/
theorem C8_repayment_index_in_bounds (p : Params) (m i : ℕ)
    (h1 : 1 ≤ m) (h2 : m ≤ p.months) (h3 : i < p.loan_term) :
    m - 1 + i < (cashflow_data p).length := by
  rw [cashflow_data, cashflowAux_length]
  unfold forecast_horizon
  omega

/-- Witness for C8 at the sidebar defaults, month 12, offset 2 (the last
written cell). -/
theorem C8_witness :
    1 ≤ 12 ∧ 12 ≤ defaultParams.months ∧ 2 < defaultParams.loan_term ∧
    12 - 1 + 2 < (cashflow_data defaultParams).length :=
  ⟨by norm_num, by norm_num [defaultParams], by norm_num [defaultParams],
   C8_repayment_index_in_bounds defaultParams 12 2 (by norm_num)
     (by norm_num [defaultParams]) (by norm_num [defaultParams])⟩

/-- Claim C9: at the concrete scenario of testable property 7 (initial
lending 1,000,000, zero growth, sizes 300-1500, term 3, cost 40, bad debt
20%, recovery 0%, base revenue 150, horizon 1 month, fixed 25,000,
variable 5%), month 1 has loans_funded 1111, revenue per loan 450,
revenue 499,950, bad debt per loan 180, provision 199,980, cost 44,440,
variable cost 24,997.5, total expenditure 294,417.5 and net cashflow
205,532.5. -/
theorem C9_concrete_scenario :
    revenue_per_loan scenarioC9 = 450 ∧
    bad_debt_per_loan scenarioC9 = 180 ∧
    (calculate_monthly_metrics 1 scenarioC9).loans_this_month = 1111 ∧
    (calculate_monthly_metrics 1 scenarioC9).revenue = 499950 ∧
    (calculate_monthly_metrics 1 scenarioC9).provision = 199980 ∧
    (calculate_monthly_metrics 1 scenarioC9).cost = 44440 ∧
    (calculate_monthly_metrics 1 scenarioC9).variable_cost = 49995 / 2 ∧
    (calculate_monthly_metrics 1 scenarioC9).total_expenditure = 588835 / 2 ∧
    (calculate_monthly_metrics 1 scenarioC9).net_cashflow = 411065 / 2 := by
  norm_num [calculate_monthly_metrics, monthly_lending, avg_loan_size,
    loan_size_factor, loan_term_factor, revenue_per_loan, bad_debt_per_loan,
    pyInt, scenarioC9]

/-- Claim C3: with a positive loan term, the cashflow series has length
months + loan_term and its total equals the total revenue of the monthly
records of the base horizon — straight-line amortization conserves total
revenue exactly in exact arithmetic. -/
theorem C3_amortization_conserves_revenue (p : Params)
    (ht : 1 ≤ p.loan_term) :
    (cashflow_data p).length = p.months + p.loan_term ∧
    (cashflow_data p).sum =
      ((forecast_records p).map MonthlyRecord.revenue).sum := by
  constructor
  · rw [cashflow_data, cashflowAux_length]
    rfl
  · rw [cashflow_data, cashflowAux_sum p ht p.months le_rfl,
      forecast_records, List.map_map]
    rfl

/-- Witness for C3 at the scenario of property 7 (horizon 1, term 3): the
single month's revenue 499,950 is spread as 166,650 over three slots. -/
theorem C3_witness :
    1 ≤ scenarioC9.loan_term ∧
    (cashflow_data scenarioC9).length =
      scenarioC9.months + scenarioC9.loan_term ∧
    (cashflow_data scenarioC9).sum =
      ((forecast_records scenarioC9).map MonthlyRecord.revenue).sum :=
  ⟨by norm_num [scenarioC9],
   (C3_amortization_conserves_revenue scenarioC9 (by norm_num [scenarioC9])).1,
   (C3_amortization_conserves_revenue scenarioC9 (by norm_num [scenarioC9])).2⟩

/-- Counterexample to claim C6 as stated: with loan_term = 0 the code
does not fail with any error — the guard `if loan_term > 0` of app.py
line 191 silently skips the amortization, the forecast is still produced
and the cashflow series is the all-zero list. -/
theorem C6_counterexample :
    run_forecast zeroTermParams ≠ none ∧
    cashflow_data zeroTermParams = [0] := by
  constructor
  · unfold run_forecast
    rw [if_neg (by norm_num [zeroTermParams])]
    exact Option.some_ne_none _
  · rfl

/-- Amended claim C6: for loan_term_months = 0 the guard of app.py line
191 skips amortization every month, so no division by zero occurs and
the cashflow series is returned as the all-zero list of length
months + loan_term; no InvalidTermError exists in the code. -/
theorem C6_zero_term_skips_amortization (p : Params)
    (h : p.loan_term = 0) :
    cashflow_data p = List.replicate (forecast_horizon p) 0 := by
  rw [cashflow_data]
  have aux : ∀ n : ℕ,
      cashflowAux p n = List.replicate (forecast_horizon p) 0 := by
    intro n
    induction n with
    | zero => rfl
    | succ k ih =>
      rw [cashflowAux_succ, ih]
      unfold cashflow_step
      rw [if_neg (by omega)]
  exact aux p.months

/-- Witness for the amended C6 at the concrete zero-term scenario. -/
theorem C6_witness :
    zeroTermParams.loan_term = 0 ∧
    cashflow_data zeroTermParams =
      List.replicate (forecast_horizon zeroTermParams) 0 :=
  ⟨rfl, C6_zero_term_skips_amortization zeroTermParams rfl⟩

/-- Claim C7: saving under a blank or whitespace-only name fails (the
handler shows an error) and leaves the store unchanged; saving under any
non-blank name stores the snapshot under that name, overwriting any
existing entry of the same name and leaving every other key unchanged. -/
theorem C7_scenario_save_semantics (α : Type) (store : String → Option α)
    (name : String) (snap : α) :
    (is_blank name = true → scenario_save store name snap = (false, store)) ∧
    (is_blank name = false →
      scenario_save store name snap =
        (true, fun k => if k = name then some snap else store k)) := by
  constructor <;> intro h <;> simp [scenario_save, h]

/-- Witness for C7: on the empty store, saving under a whitespace-only
name fails and changes nothing, while saving snapshot 7 under "Base"
stores it there and leaves other keys empty. -/
theorem C7_witness :
    (scenario_save (fun _ => (none : Option ℕ)) "   " 7 =
      (false, fun _ => none)) ∧
    ((scenario_save (fun _ => (none : Option ℕ)) "Base" 7).2 "Base" =
      some 7) ∧
    ((scenario_save (fun _ => (none : Option ℕ)) "Base" 7).2 "Other" =
      none) :=
  ⟨(C7_scenario_save_semantics ℕ (fun _ => none) "   " 7).1 (by decide),
   by rw [(C7_scenario_save_semantics ℕ (fun _ => none) "Base" 7).2
       (by decide)]
      simp,
   by rw [(C7_scenario_save_semantics ℕ (fun _ => none) "Base" 7).2
       (by decide)]
      simp⟩

/-- Claim C1 names the exponent 1/(horizon-1); app.py line 263 computes
`(last/first) ** (1/months)`. At 100% monthly growth over a 2-month
horizon the lending volumes are 1,000,000 then 2,000,000 — every
month-over-month growth is exactly 100% — yet the code's metric is
2^(1/2) - 1 = sqrt 2 - 1 (about 41.4%) while the spec's formula recovers
2^(1/1) - 1 = 1 (100%), contradicting the code's own label "Average
monthly growth rate achieved". -/
theorem C1_growth_exponent_divergence :
    avg_growth growthBugParams = Real.sqrt 2 - 1 ∧
    avg_growth_claimed growthBugParams = 1 ∧
    avg_growth growthBugParams ≠ avg_growth_claimed growthBugParams := by
  have hmonths : growthBugParams.months = 2 := rfl
  have hm2 : monthly_lending 2 growthBugParams = 2000000 := by
    norm_num [monthly_lending, growthBugParams]
  have hm1 : monthly_lending 1 growthBugParams = 1000000 := by
    norm_num [monthly_lending, growthBugParams]
  have hratio : ((monthly_lending 2 growthBugParams : ℚ) : ℝ) /
      ((monthly_lending 1 growthBugParams : ℚ) : ℝ) = 2 := by
    rw [hm1, hm2]
    norm_num
  have hsqrt : Real.sqrt 2 ≠ 2 := by
    intro h
    have h2 := Real.sq_sqrt (by norm_num : (0 : ℝ) ≤ 2)
    rw [h] at h2
    norm_num at h2
  have hcode : avg_growth growthBugParams = Real.sqrt 2 - 1 := by
    unfold avg_growth
    rw [if_pos (by rw [hmonths]; norm_num), hmonths, hratio]
    rw [show ((1 : ℝ) / ((2 : ℕ) : ℝ)) = (1 / 2 : ℝ) by norm_num]
    rw [← Real.sqrt_eq_rpow]
  have hspec : avg_growth_claimed growthBugParams = 1 := by
    unfold avg_growth_claimed
    rw [if_pos (by rw [hmonths]; norm_num), hmonths, hratio]
    rw [show ((1 : ℝ) / (((2 : ℕ) : ℝ) - 1)) = (1 : ℝ) by norm_num]
    rw [Real.rpow_one]
    norm_num
  refine ⟨hcode, hspec, ?_⟩
  rw [hcode, hspec]
  intro h
  exact hsqrt (by linarith)

end LendingForecast
